import Mathlib

/-!
Verification development for the catalog manager of a replicated tabular
storage system (master side).  The definitions below are a shallow embedding
of src/kudu/master/catalog_manager.cc: protobuf records become structures,
the copy-on-write metadata discipline becomes explicit construction of dirty
records that are installed into the catalog maps only on commit, and the
outcome of the (external, consensus-replicated) system-catalog write is an
explicit boolean parameter of each handler.
-/

namespace KuduCatalog

/-- Table lifecycle states (SysTablesEntryPB::State). -/
inductive TableStatePB
  | PREPARING
  | RUNNING
  | ALTERING
  | REMOVED
deriving DecidableEq, Repr

/-- Tablet lifecycle states (SysTabletsEntryPB::State). -/
inductive TabletStatePB
  | PREPARING
  | CREATING
  | RUNNING
  | REPLACED
  | DELETED
deriving DecidableEq, Repr

/-- Data states a tablet replica reports for its on-disk superblock
(TabletDataState). -/
inductive TabletDataState
  | TABLET_DATA_READY
  | TABLET_DATA_COPYING
  | TABLET_DATA_TOMBSTONED
  | TABLET_DATA_DELETED
deriving DecidableEq, Repr

/-- Runtime state of a tablet replica as reported by a tablet server
(tablet::TabletStatePB); ProcessTabletReport only compares against RUNNING. -/
inductive TsTabletState
  | NOT_STARTED
  | BOOTSTRAPPING
  | RUNNING
  | FAILED
  | SHUTDOWN
deriving DecidableEq, Repr

/-- Raft member types (RaftPeerPB::MemberType). -/
inductive RaftMemberType
  | VOTER
  | NON_VOTER
deriving DecidableEq, Repr

/-- Error codes of MasterErrorPB that the modelled handlers produce. -/
inductive MasterErrorCode
  | UNKNOWN_ERROR
  | INVALID_SCHEMA
  | TABLE_NOT_FOUND
  | TABLE_ALREADY_PRESENT
  | TOO_MANY_TABLETS
  | REPLICATION_FACTOR_TOO_HIGH
  | ILLEGAL_REPLICATION_FACTOR
  | EVEN_REPLICATION_FACTOR
  | NOT_THE_LEADER
deriving DecidableEq, Repr

/-- Result of a request handler: no error, a typed master error, a failure of
the system-catalog write (surfaced via CheckIfNoLongerLeaderAndSetupError),
or a malformed request rejected before any master error code is attached. -/
inductive HandlerError
  | master (code : MasterErrorCode)
  | writeFailed
  | invalidRequest
deriving DecidableEq, Repr

/-! ## Retrying RPC task backoff (RetryingTSRpcTask) -/

/-- States of a retrying master-to-tablet-server RPC task
(MonitoredTask::State). -/
inductive TaskRpcState
  | kStateRunning
  | kStateComplete
  | kStateAborted
  | kStateFailed
deriving DecidableEq, Repr

/-- Base backoff delay in milliseconds: 1 << (attempt + 3) for the first 12
attempts, capped at one minute afterwards
(RetryingTSRpcTask::RescheduleWithBackoffDelay). -/
def backoffBaseDelayMs (attempt : Int) : Int :=
  if attempt ≤ 12 then 2 ^ (attempt + 3).toNat else 60 * 1000

/-- Outcome of RescheduleWithBackoffDelay: whether a retry was scheduled, the
resulting task state, and the scheduled delay when a retry was scheduled. -/
structure BackoffOutcome where
  rescheduled : Bool
  state : TaskRpcState
  delayMillis : Option Int
deriving DecidableEq, Repr

/-- RetryingTSRpcTask::RescheduleWithBackoffDelay.  The wall clock enters only
through the difference between the task deadline and now (in milliseconds);
the call rand() is the given natural number. -/
def RescheduleWithBackoffDelay (state : TaskRpcState) (deadlineMinusNowMs : Int)
    (attempt : Int) (rand : Nat) : BackoffOutcome :=
  if state ≠ .kStateRunning then ⟨false, state, none⟩
  else
    let millisRemaining : Int := deadlineMinusNowMs - 10
    let jitterMs : Int := ((rand % 50 : Nat) : Int)
    let delayMillis : Int := min (backoffBaseDelayMs attempt + jitterMs) millisRemaining
    if delayMillis ≤ 0 then ⟨false, .kStateFailed, none⟩
    else ⟨true, .kStateRunning, some delayMillis⟩

theorem backoffBaseDelayMs_eq_min (attempt : Int) (h : 0 ≤ attempt) :
    backoffBaseDelayMs attempt = min (2 ^ (attempt + 3).toNat) 60000 := by
  unfold backoffBaseDelayMs
  by_cases h12 : attempt ≤ 12
  · rw [if_pos h12]
    have hle : (attempt + 3).toNat ≤ 15 := by omega
    have : (2 : Int) ^ (attempt + 3).toNat ≤ 2 ^ 15 :=
      pow_le_pow_right₀ (by norm_num) hle
    have h60 : (2 : Int) ^ (attempt + 3).toNat ≤ 60000 := by
      calc (2 : Int) ^ (attempt + 3).toNat ≤ 2 ^ 15 := this
        _ ≤ 60000 := by norm_num
    omega
  · rw [if_neg h12]
    have hge : 16 ≤ (attempt + 3).toNat := by omega
    have : (2 : Int) ^ 16 ≤ 2 ^ (attempt + 3).toNat :=
      pow_le_pow_right₀ (by norm_num) hge
    have h60 : (60000 : Int) ≤ 2 ^ (attempt + 3).toNat := by
      calc (60000 : Int) ≤ 2 ^ 16 := by norm_num
        _ ≤ 2 ^ (attempt + 3).toNat := this
    omega

/-! ## Consensus protobuf records -/

/-- One peer of a Raft config (RaftPeerPB); the health report is modelled by
its presence bit only, which is all the catalog manager inspects or strips. -/
structure RaftPeerPB where
  permanent_uuid : String
  member_type : RaftMemberType
  has_health_report : Bool
deriving DecidableEq, Repr

/-- Committed Raft config (RaftConfigPB); opid_index is an optional field. -/
structure RaftConfigPB where
  opid_index : Option Int
  peers : List RaftPeerPB
deriving DecidableEq, Repr

/-- Protobuf getter for the optional opid_index field (default 0). -/
def RaftConfigPB.opidIndex (c : RaftConfigPB) : Int := c.opid_index.getD 0

/-- Consensus state (ConsensusStatePB): current term, leader uuid (empty
string when absent, as the source tests with empty()), committed config and
the presence bit of a pending config. -/
structure ConsensusStatePB where
  current_term : Int
  leader_uuid : String
  committed_config : RaftConfigPB
  has_pending_config : Bool
deriving DecidableEq, Repr

/-- Sentinel consensus::kInvalidOpIdIndex. -/
def kInvalidOpIdIndex : Int := -1

/-- Default-constructed ConsensusStatePB, the value the protobuf getter
returns for a tablet whose consensus_state field was never set. -/
def defaultConsensusState : ConsensusStatePB :=
  { current_term := 0, leader_uuid := "", committed_config := ⟨none, []⟩,
    has_pending_config := false }

/-- Modelled from the spec: IsRaftConfigMember of the consensus layer is not
part of the excerpt.  Per the spec of tablet-report processing step 3 ("the
reporting server is not in the tablet's cached committed config") and the
source comments at steps 5 and 7b ("not a member of the committed config"),
it tests membership of the uuid among the config peers irrespective of the
member type. -/
def IsRaftConfigMember (uuid : String) (config : RaftConfigPB) : Prop :=
  uuid ∈ config.peers.map RaftPeerPB.permanent_uuid

instance (uuid : String) (config : RaftConfigPB) :
    Decidable (IsRaftConfigMember uuid config) := by
  unfold IsRaftConfigMember; infer_instance

/-- Modelled from the spec: CountVoters of the consensus layer is not part of
the excerpt; it counts the peers whose member type is VOTER. -/
def CountVoters (config : RaftConfigPB) : Nat :=
  (config.peers.filter (fun p => p.member_type == RaftMemberType.VOTER)).length

/-! ## Persistent catalog records and the in-memory directory -/

/-- Persistent per-table record (SysTablesEntryPB).  The column schema and
the partition schema are opaque to every modelled operation, so they are
represented by abstract tokens (naturals); column-id assignment lives in the
external schema library and is likewise abstracted. -/
structure SysTablesEntryPB where
  state : TableStatePB
  state_msg : String
  name : String
  version : Nat
  next_column_id : Nat
  num_replicas : Int
  schema : Nat
  fully_applied_schema : Option Nat
  partition_schema : Nat
deriving DecidableEq, Repr

/-- Modelled from the spec: PersistentTableInfo::is_deleted lives in the
header, outside the excerpt; a table is deleted when its state is REMOVED. -/
def SysTablesEntryPB.is_deleted (t : SysTablesEntryPB) : Prop :=
  t.state = TableStatePB.REMOVED

instance (t : SysTablesEntryPB) : Decidable t.is_deleted := by
  unfold SysTablesEntryPB.is_deleted; infer_instance

/-- Modelled from the spec: PersistentTableInfo::is_running lives in the
header, outside the excerpt; a table is serving (running) while in RUNNING
or ALTERING. -/
def SysTablesEntryPB.is_running (t : SysTablesEntryPB) : Prop :=
  t.state = TableStatePB.RUNNING ∨ t.state = TableStatePB.ALTERING

instance (t : SysTablesEntryPB) : Decidable t.is_running := by
  unfold SysTablesEntryPB.is_running; infer_instance

/-- Persistent per-tablet record (SysTabletsEntryPB). -/
structure SysTabletsEntryPB where
  state : TabletStatePB
  state_msg : String
  table_id : String
  partition_key_start : String
  partition_key_end : String
  consensus_state : Option ConsensusStatePB
deriving DecidableEq, Repr

/-- Protobuf getter for the optional consensus_state field. -/
def SysTabletsEntryPB.cstate (t : SysTabletsEntryPB) : ConsensusStatePB :=
  t.consensus_state.getD defaultConsensusState

/-- Modelled from the spec: PersistentTabletInfo::is_deleted lives in the
header, outside the excerpt; per tablet-report step 2 of the spec a tablet is
deleted when its state is DELETED. -/
def SysTabletsEntryPB.is_deleted (t : SysTabletsEntryPB) : Prop :=
  t.state = TabletStatePB.DELETED

instance (t : SysTabletsEntryPB) : Decidable t.is_deleted := by
  unfold SysTabletsEntryPB.is_deleted; infer_instance

/-- Modelled from the spec: PersistentTabletInfo::is_running lives in the
header, outside the excerpt; a tablet is running when its state is RUNNING. -/
def SysTabletsEntryPB.is_running (t : SysTabletsEntryPB) : Prop :=
  t.state = TabletStatePB.RUNNING

instance (t : SysTabletsEntryPB) : Decidable t.is_running := by
  unfold SysTabletsEntryPB.is_running; infer_instance

/-- In-memory TabletInfo: committed persistent record plus the volatile
last-reported schema version (sentinel -1 = NOT_YET_REPORTED). -/
structure TabletInfo where
  id : String
  pb : SysTabletsEntryPB
  reported_schema_version : Int
deriving DecidableEq, Repr

/-- In-memory TableInfo: committed persistent record plus the ids of the
child tablets in the table's partition-key-ordered tablet map.  The tablet
objects themselves live in the global tablet map of the catalog state. -/
structure TableInfo where
  id : String
  pb : SysTablesEntryPB
  tablet_ids : List String
deriving DecidableEq, Repr

/-- Association-list lookup (FindPtrOrNull). -/
def alookup {α : Type} : List (String × α) → String → Option α
  | [], _ => none
  | e :: m, k => if e.fst == k then some e.snd else alookup m k

/-- Association-list insert-or-overwrite. -/
def ainsert {α : Type} (m : List (String × α)) (k : String) (v : α) :
    List (String × α) :=
  (k, v) :: m.filter (fun e => e.fst != k)

/-- Association-list erase. -/
def aerase {α : Type} (m : List (String × α)) (k : String) :
    List (String × α) :=
  m.filter (fun e => e.fst != k)

/-- Committed in-memory directory of the catalog manager: by-id table map,
by-name table map (storing the table id), global tablet map and the
reserved-names set. -/
structure CatalogState where
  table_ids_map : List (String × TableInfo)
  table_names_map : List (String × String)
  tablet_map : List (String × TabletInfo)
  reserved_table_names : List String
deriving DecidableEq, Repr

/-- Run-time flags consulted by the modelled handlers. -/
structure MasterFlags where
  default_num_replicas : Int
  allow_unsafe_replication_factor : Bool
  max_num_replicas : Int
  max_create_tablets_per_ts : Int
  catalog_manager_check_ts_count_for_create_table : Bool
  master_tombstone_evicted_tablet_replicas : Bool
  master_add_server_when_underreplicated : Bool
  raft_prepare_replacement_before_eviction : Bool
  raft_attempt_to_replace_replica_without_majority : Bool
  catalog_manager_evict_excess_replicas : Bool
  catalog_manager_wait_for_new_tablets_to_elect_leader : Bool
deriving DecidableEq, Repr

/-- Batched actions handed to SysCatalogTable::Write. -/
structure SysCatalogActions where
  table_to_add : Option SysTablesEntryPB
  table_to_update : Option SysTablesEntryPB
  tablets_to_add : List SysTabletsEntryPB
  tablets_to_update : List SysTabletsEntryPB
deriving DecidableEq, Repr

/-- Outcome of a modelled request handler: the returned status, the committed
in-memory directory after the handler, and the actions passed to the
system-catalog write when one was attempted. -/
structure HandlerOutcome where
  res : Option HandlerError
  st : CatalogState
  written : Option SysCatalogActions
deriving DecidableEq, Repr

/-! ## CreateTable -/

/-- Create-table request after the external preprocessing that precedes the
modelled logic: the schema has been validated and got its column ids, and the
partition layout was already built from split rows and range bounds by the
partition library, yielding one (start, end) partition-key pair per tablet. -/
structure CreateTableRequestPB where
  name : String
  num_replicas : Option Int
  schema : Nat
  partition_schema : Nat
  partitions : List (String × String)
deriving DecidableEq, Repr

/-- CatalogManager::CreateTableInfo: a fresh table record in PREPARING.
Column-id bookkeeping (next_column_id) is produced by the external schema
library and abstracted to 0 here. -/
def CreateTableInfo (req : CreateTableRequestPB) (num_replicas : Int) :
    SysTablesEntryPB :=
  { state := .PREPARING
    state_msg := ""
    name := req.name
    version := 0
    next_column_id := 0
    num_replicas := num_replicas
    schema := req.schema
    fully_applied_schema := none
    partition_schema := req.partition_schema }

/-- CatalogManager::CreateTabletInfo: a fresh tablet record in PREPARING. -/
def CreateTabletInfo (tableId : String) (partition : String × String) :
    SysTabletsEntryPB :=
  { state := .PREPARING
    state_msg := ""
    table_id := tableId
    partition_key_start := partition.fst
    partition_key_end := partition.snd
    consensus_state := none }

/-- CatalogManager::CreateTable, from the replication-factor checks on
(identifier and schema validation, column-default fix-up and partition
construction happen in external libraries beforehand and are preconditions
of the request record).  GenerateId is the external id generator, so the
fresh table id and tablet ids are parameters; numLiveTservers is the size of
the live tablet-server list; writeOk is the outcome of the system-catalog
write.  The table-name reservation taken in step c is released by the scoped
cleanup on every return path, so the reserved-names set is unchanged in the
outcome. -/
def CreateTable (flags : MasterFlags) (numLiveTservers : Int)
    (st : CatalogState) (req : CreateTableRequestPB)
    (tableId : String) (tabletIds : List String) (writeOk : Bool) :
    HandlerOutcome :=
  let num_replicas := req.num_replicas.getD flags.default_num_replicas
  if num_replicas % 2 = 0 ∧ ¬ flags.allow_unsafe_replication_factor then
    ⟨some (.master .EVEN_REPLICATION_FACTOR), st, none⟩
  else if num_replicas > flags.max_num_replicas then
    ⟨some (.master .REPLICATION_FACTOR_TOO_HIGH), st, none⟩
  else if num_replicas ≤ 0 then
    ⟨some (.master .ILLEGAL_REPLICATION_FACTOR), st, none⟩
  else
    let max_tablets : Int := flags.max_create_tablets_per_ts * numLiveTservers
    if num_replicas > 1 ∧ max_tablets > 0 ∧
        (req.partitions.length : Int) > max_tablets then
      ⟨some (.master .TOO_MANY_TABLETS), st, none⟩
    else if flags.catalog_manager_check_ts_count_for_create_table ∧
        num_replicas > numLiveTservers then
      ⟨some (.master .REPLICATION_FACTOR_TOO_HIGH), st, none⟩
    else if (alookup st.table_names_map req.name).isSome then
      ⟨some (.master .TABLE_ALREADY_PRESENT), st, none⟩
    else if req.name ∈ st.reserved_table_names then
      ⟨some (.master .TABLE_ALREADY_PRESENT), st, none⟩
    else
      let tablePreparing := CreateTableInfo req num_replicas
      let tabletPbs := req.partitions.map (CreateTabletInfo tableId)
      let tablePb : SysTablesEntryPB := { tablePreparing with state := .RUNNING }
      let actions : SysCatalogActions :=
        { table_to_add := some tablePb, table_to_update := none,
          tablets_to_add := tabletPbs, tablets_to_update := [] }
      if ¬ writeOk then ⟨some .writeFailed, st, some actions⟩
      else
        let newTablets := (tabletIds.zip tabletPbs).map
          (fun e => (e.fst, TabletInfo.mk e.fst e.snd (-1)))
        let tableInfo : TableInfo := ⟨tableId, tablePb, tabletIds⟩
        let stc : CatalogState :=
          { table_ids_map := ainsert st.table_ids_map tableId tableInfo
            table_names_map := ainsert st.table_names_map req.name tableId
            tablet_map := newTablets.foldl
              (fun m e => ainsert m e.fst e.snd) st.tablet_map
            reserved_table_names := st.reserved_table_names }
        ⟨none, stc, some actions⟩

/-! ## Table lookup, IsCreateTableDone and DeleteTable -/

/-- Table identifier of a request (TableIdentifierPB). -/
structure TableIdentifierPB where
  table_id : Option String
  table_name : Option String
deriving DecidableEq, Repr

/-- CatalogManager::FindAndLockTable.  Returns .error invalidRequest when the
identifier carries neither id nor name (the source returns InvalidArgument),
.ok none when the table is not found, including the case where a request
naming both id and name resolves them to different tables, and the case
where the stored name changed under our feet (rename in progress). -/
def FindTable (st : CatalogState) (ident : TableIdentifierPB) :
    Except HandlerError (Option TableInfo) :=
  let found : Except HandlerError (Option TableInfo) :=
    match ident.table_id with
    | some tid =>
      let t := alookup st.table_ids_map tid
      match ident.table_name with
      | some nm =>
        if t.map TableInfo.id = alookup st.table_names_map nm then .ok t
        else .ok none
      | none => .ok t
    | none =>
      match ident.table_name with
      | some nm => .ok ((alookup st.table_names_map nm).bind
          (alookup st.table_ids_map))
      | none => .error .invalidRequest
  match found with
  | .error e => .error e
  | .ok none => .ok none
  | .ok (some t) =>
    match ident.table_name with
    | some nm => if nm = t.pb.name then .ok (some t) else .ok none
    | none => .ok (some t)

/-- TableInfo::IsCreateInProgress: some tablet in the table's own tablet map
is not running.  Tablet ids missing from the global map cannot arise in a
well-formed directory and count as running. -/
def IsCreateInProgress (st : CatalogState) (table : TableInfo) : Prop :=
  ∃ tid ∈ table.tablet_ids, ∃ t, alookup st.tablet_map tid = some t ∧
    ¬ t.pb.is_running

instance (st : CatalogState) (table : TableInfo) :
    Decidable (IsCreateInProgress st table) := by
  unfold IsCreateInProgress; infer_instance

/-- CatalogManager::IsCreateTableDone: look the table up, reject deleted or
not-running tables (CheckIfTableDeletedOrNotRunning) and otherwise report
whether the create is still in progress. -/
def IsCreateTableDone (st : CatalogState) (ident : TableIdentifierPB) :
    Except HandlerError Bool :=
  match FindTable st ident with
  | .error e => .error e
  | .ok none => .error (.master .TABLE_NOT_FOUND)
  | .ok (some table) =>
    if table.pb.is_deleted then .error (.master .TABLE_NOT_FOUND)
    else if ¬ table.pb.is_running then .error (.master .TABLE_NOT_FOUND)
    else .ok (decide ¬ (IsCreateInProgress st table))

/-- Helper of the commit step: install a list of dirty tablet records into
the global tablet map (group-lock Commit over the dirty copies). -/
def commitTabletDirties (m : List (String × TabletInfo))
    (dirties : List (String × SysTabletsEntryPB)) :
    List (String × TabletInfo) :=
  m.map (fun e =>
    match alookup dirties e.fst with
    | some pb => (e.fst, { e.snd with pb := pb })
    | none => e)

/-- CatalogManager::DeleteTable.  Marks the table REMOVED and every tablet of
the table DELETED on the dirty copies, writes the batch, and only on write
success erases the name from the by-name map and commits the dirty state. -/
def DeleteTable (st : CatalogState) (ident : TableIdentifierPB)
    (writeOk : Bool) : HandlerOutcome :=
  match FindTable st ident with
  | .error e => ⟨some e, st, none⟩
  | .ok none => ⟨some (.master .TABLE_NOT_FOUND), st, none⟩
  | .ok (some table) =>
    if table.pb.is_deleted then ⟨some (.master .TABLE_NOT_FOUND), st, none⟩
    else
      let deletion_msg := "Table deleted"
      let tableDirty : SysTablesEntryPB :=
        { table.pb with state := .REMOVED, state_msg := deletion_msg }
      let tabletDirties : List (String × SysTabletsEntryPB) :=
        table.tablet_ids.filterMap (fun tid =>
          (alookup st.tablet_map tid).map (fun t =>
            (tid, { t.pb with
                      state := TabletStatePB.DELETED
                      state_msg := deletion_msg })))
      let actions : SysCatalogActions :=
        { table_to_add := none, table_to_update := some tableDirty,
          tablets_to_add := [], tablets_to_update := tabletDirties.map Prod.snd }
      if ¬ writeOk then ⟨some .writeFailed, st, some actions⟩
      else
        let stc : CatalogState :=
          { table_ids_map := ainsert st.table_ids_map table.id
              { table with pb := tableDirty }
            table_names_map := aerase st.table_names_map table.pb.name
            tablet_map := commitTabletDirties st.tablet_map tabletDirties
            reserved_table_names := st.reserved_table_names }
        ⟨none, stc, some actions⟩

/-! ## AlterTable -/

/-- Alter-table request after the external step application: the schema steps
were applied by ApplyAlterSchemaSteps (new_schema, new_next_column_id carry
its successful result when has_schema_changes) and the partition steps by
ApplyAlterPartitioningSteps (tablets_to_add carries id and partition bounds
for each surviving ADD_RANGE_PARTITION, tablets_to_drop_ids the ids of the
exact-match dropped existing tablets).  has_partitioning_changes records
whether the request contained any partition step at all (it can be true with
both lists empty when an added range was dropped again in the same
request). -/
structure AlterTableRequest where
  table : TableIdentifierPB
  has_schema_changes : Bool
  new_schema : Nat
  new_next_column_id : Nat
  new_table_name : Option String
  has_partitioning_changes : Bool
  tablets_to_add : List (String × String × String)
  tablets_to_drop_ids : List String
deriving DecidableEq, Repr

/-- CatalogManager::AlterTable from the table lookup onwards (step grouping
and step application are external preprocessing, see AlterTableRequest).
The dirty table record is assembled exactly in source order: rename, then
fully_applied_schema preservation, then the new schema, then the version
bump, then the ALTERING transition; everything is installed into the
committed maps only after the system-catalog write succeeds. -/
def AlterTable (st : CatalogState) (req : AlterTableRequest)
    (writeOk : Bool) : HandlerOutcome :=
  match FindTable st req.table with
  | .error e => ⟨some e, st, none⟩
  | .ok none => ⟨some (.master .TABLE_NOT_FOUND), st, none⟩
  | .ok (some table) =>
    if table.pb.is_deleted then ⟨some (.master .TABLE_NOT_FOUND), st, none⟩
    else
      let table_name := table.pb.name
      let renameConflict : Bool :=
        match req.new_table_name with
        | some nm => (alookup st.table_names_map nm).isSome ||
            st.reserved_table_names.contains nm
        | none => false
      if renameConflict then ⟨some (.master .TABLE_ALREADY_PRESENT), st, none⟩
      else
        let dirty0 : SysTablesEntryPB :=
          match req.new_table_name with
          | some nm => { table.pb with name := nm }
          | none => table.pb
        let has_schema_changes : Bool := req.has_schema_changes
        let has_metadata_changes : Bool :=
          has_schema_changes || req.new_table_name.isSome
        let has_partitioning_changes : Bool := req.has_partitioning_changes
        let has_metadata_changes_for_existing_tablets : Bool :=
          has_metadata_changes &&
            decide (table.tablet_ids.length > req.tablets_to_drop_ids.length)
        if !has_metadata_changes && !has_partitioning_changes then
          ⟨none, st, none⟩
        else
          let dirty1 :=
            if has_metadata_changes_for_existing_tablets &&
                dirty0.fully_applied_schema.isNone then
              { dirty0 with fully_applied_schema := some table.pb.schema }
            else dirty0
          let dirty2 :=
            if has_schema_changes then { dirty1 with schema := req.new_schema }
            else dirty1
          let dirty3 :=
            if has_metadata_changes then
              { dirty2 with
                  version := dirty2.version + 1
                  next_column_id := req.new_next_column_id }
            else dirty2
          let dirty4 :=
            if !req.tablets_to_add.isEmpty ||
                has_metadata_changes_for_existing_tablets then
              { dirty3 with state := .ALTERING, state_msg := "Alter Table" }
            else dirty3
          let deletion_msg := "Partition dropped"
          let addPbs : List (String × SysTabletsEntryPB) :=
            req.tablets_to_add.map (fun e =>
              (e.fst, CreateTabletInfo table.id (e.snd.fst, e.snd.snd)))
          let drops : List (String × SysTabletsEntryPB) :=
            req.tablets_to_drop_ids.filterMap (fun tid =>
              (alookup st.tablet_map tid).map (fun t =>
                (tid, { t.pb with
                          state := TabletStatePB.DELETED
                          state_msg := deletion_msg })))
          let actions : SysCatalogActions :=
            { table_to_add := none
              table_to_update :=
                if !req.tablets_to_add.isEmpty || has_metadata_changes then
                  some dirty4
                else none
              tablets_to_add := addPbs.map Prod.snd
              tablets_to_update := drops.map Prod.snd }
          if ¬ writeOk then ⟨some .writeFailed, st, some actions⟩
          else
            let tabletMap1 := addPbs.foldl
              (fun m e => ainsert m e.fst (TabletInfo.mk e.fst e.snd (-1)))
              st.tablet_map
            let namesMap1 :=
              match req.new_table_name with
              | some nm => ainsert (aerase st.table_names_map table_name)
                  nm table.id
              | none => st.table_names_map
            let newTabletIds :=
              (table.tablet_ids.filter
                (fun tid => ¬ req.tablets_to_drop_ids.contains tid)) ++
              addPbs.map Prod.fst
            let tabletMap2 := commitTabletDirties tabletMap1 drops
            let tablePbFinal :=
              if !req.tablets_to_add.isEmpty || has_metadata_changes then dirty4
              else table.pb
            let stc : CatalogState :=
              { table_ids_map := ainsert st.table_ids_map table.id
                  ⟨table.id, tablePbFinal, newTabletIds⟩
                table_names_map := namesMap1
                tablet_map := tabletMap2
                reserved_table_names := st.reserved_table_names }
            ⟨none, stc, some actions⟩

/-! ## Tablet report processing -/

/-- One entry of a tablet report batch (ReportedTabletPB). -/
structure ReportedTabletPB where
  tablet_id : String
  state : TsTabletState
  tablet_data_state : TabletDataState
  has_error : Bool
  consensus_state : Option ConsensusStatePB
  schema_version : Option Nat
deriving DecidableEq, Repr

/-- Administrative RPC tasks queued by ProcessTabletReport: AsyncDeleteReplica
with its data state and optional cas_config_opid_index_less_or_equal,
AsyncAddReplicaTask, AsyncEvictReplicaTask and AsyncAlterTable. -/
inductive ReportRpc
  | deleteReplica (targetUuid : String) (dataState : TabletDataState)
      (casOpidIndex : Option Int)
  | addReplica (memberType : RaftMemberType)
  | evictReplica (toEvict : String)
  | alterSchema
deriving DecidableEq, Repr

/-- Modelled from the spec: the placement policy functions ShouldEvictReplica
and ShouldAddReplica live in the consensus layer outside the excerpt; the
model abstracts them as opaque parameters.  shouldEvictReplica receives the
committed config, the leader uuid, the replication factor and whether
majority health is honored, and returns the replica to evict, if any;
shouldAddReplica analogously decides under-replication. -/
structure ReplicaManagementPolicy where
  shouldEvictReplica : RaftConfigPB → String → Int → Bool → Option String
  shouldAddReplica : RaftConfigPB → Int → Bool → Bool

/-- Step 7b of ProcessTabletReport: disregard the leader state if the
reported leader is not a member of the committed config. -/
def DisregardIfNotMember (cstate : ConsensusStatePB) : ConsensusStatePB :=
  if cstate.leader_uuid.isEmpty ||
      !(decide (IsRaftConfigMember cstate.leader_uuid cstate.committed_config))
  then { cstate with leader_uuid := "" }
  else cstate

/-- ShouldTransitionTabletToRunning (anonymous namespace of the source). -/
def ShouldTransitionTabletToRunning (flags : MasterFlags)
    (tabletPb : SysTabletsEntryPB) (report : ReportedTabletPB)
    (cstate : ConsensusStatePB) : Bool :=
  if tabletPb.is_running then false
  else if report.state ≠ TsTabletState.RUNNING then false
  else if !flags.catalog_manager_wait_for_new_tablets_to_elect_leader then true
  else !cstate.leader_uuid.isEmpty &&
    decide (IsRaftConfigMember cstate.leader_uuid cstate.committed_config)

/-- Step 7d condition of ProcessTabletReport: the committed opid-index
advanced, or the new state names a leader and either the old one named none
or the term changed. -/
def ConsensusStateUpdated (cstate prev : ConsensusStatePB) : Bool :=
  decide (cstate.committed_config.opidIndex > prev.committed_config.opidIndex) ||
    (!cstate.leader_uuid.isEmpty &&
      (prev.leader_uuid.isEmpty ||
        decide (cstate.current_term > prev.current_term)))

/-- Step 7d(ii): strip the health reports from the persisted copy only. -/
def StripHealthReports (config : RaftConfigPB) : RaftConfigPB :=
  { config with peers := config.peers.map (fun p =>
      { p with has_health_report := false }) }

/-- Step 7d(iii) of ProcessTabletReport: for each peer of the previous
committed config that is not in the new one, queue
DeleteTablet(TOMBSTONED, cas = previous committed opid-index). -/
def TombstoneEvictedPeers (flags : MasterFlags)
    (prev_cstate cstate : ConsensusStatePB) : List ReportRpc :=
  if flags.master_tombstone_evicted_tablet_replicas then
    (prev_cstate.committed_config.peers.filter (fun p =>
        !(decide (IsRaftConfigMember p.permanent_uuid
            cstate.committed_config)))).map
      (fun p => ReportRpc.deleteReplica p.permanent_uuid
        TabletDataState.TABLET_DATA_TOMBSTONED
        (some prev_cstate.committed_config.opidIndex))
  else []

/-- Step 7e of ProcessTabletReport: config-change RPCs, in either the legacy
mode or the replacement-before-eviction mode. -/
def ConfigChangeRpcs (flags : MasterFlags) (policy : ReplicaManagementPolicy)
    (ts_uuid : String) (replication_factor : Int) (cstate : ConsensusStatePB)
    (consensus_state_updated : Bool) : List ReportRpc :=
  if !flags.raft_prepare_replacement_before_eviction then
    if consensus_state_updated && flags.master_add_server_when_underreplicated
        && decide ((CountVoters cstate.committed_config : Int) <
            replication_factor) then
      [ReportRpc.addReplica RaftMemberType.VOTER]
    else []
  else if !cstate.has_pending_config && !cstate.leader_uuid.isEmpty &&
      cstate.leader_uuid == ts_uuid then
    let honorMajority := !flags.raft_attempt_to_replace_replica_without_majority
    match (if flags.catalog_manager_evict_excess_replicas then
        policy.shouldEvictReplica cstate.committed_config cstate.leader_uuid
          replication_factor honorMajority
      else none) with
    | some to_evict => [ReportRpc.evictReplica to_evict]
    | none =>
      if flags.master_add_server_when_underreplicated &&
          policy.shouldAddReplica cstate.committed_config replication_factor
            honorMajority then
        [ReportRpc.addReplica RaftMemberType.NON_VOTER]
      else []
  else []

/-- Step 8 of ProcessTabletReport: queue an AlterSchema RPC when the reported
schema version differs from the table's current version. -/
def AlterSchemaRpcs (tableVersion : Nat) (report : ReportedTabletPB) :
    List ReportRpc :=
  match report.schema_version with
  | some v => if v ≠ tableVersion then [ReportRpc.alterSchema] else []
  | none => []

/-- Per-entry outcome of ProcessTabletReport steps 4 to 9.  newPb is the
dirty tablet record, which the group lock commits in memory at step 12 for
every reported tablet; persist says whether the entry reached step 9 with a
mutation and is therefore part of the batch written to the system catalog;
cstateAccepted says whether step 7d(ii) installed the reported consensus
state into the dirty record. -/
structure EntryOutcome where
  newPb : SysTabletsEntryPB
  persist : Bool
  cstateAccepted : Bool
  rpcs : List ReportRpc
  updateStateMsg : Option String
deriving DecidableEq, Repr

/-- Steps 4 to 9 of CatalogManager::ProcessTabletReport for one report entry,
processed against the committed state of the tablet and its table. -/
def ProcessReportEntry (flags : MasterFlags) (policy : ReplicaManagementPolicy)
    (ts_uuid : String) (tablePb : SysTablesEntryPB) (tablet : TabletInfo)
    (report : ReportedTabletPB) : EntryOutcome :=
  let pb := tablet.pb
  if pb.is_deleted ∨ tablePb.is_deleted then
    { newPb := pb, persist := false, cstateAccepted := false,
      rpcs := [.deleteReplica ts_uuid .TABLET_DATA_DELETED none],
      updateStateMsg := some pb.state_msg }
  else
    let prev_cstate := pb.cstate
    let prev_opid_index := prev_cstate.committed_config.opidIndex
    let report_opid_index : Int :=
      match report.consensus_state with
      | some cs =>
        if cs.committed_config.opid_index.isSome then cs.committed_config.opidIndex
        else kInvalidOpIdIndex
      | none => kInvalidOpIdIndex
    if flags.master_tombstone_evicted_tablet_replicas = true ∧
        report.tablet_data_state ≠ TabletDataState.TABLET_DATA_TOMBSTONED ∧
        report.tablet_data_state ≠ TabletDataState.TABLET_DATA_DELETED ∧
        ¬ IsRaftConfigMember ts_uuid prev_cstate.committed_config ∧
        report_opid_index < prev_opid_index then
      { newPb := pb, persist := false, cstateAccepted := false,
        rpcs := [.deleteReplica ts_uuid .TABLET_DATA_TOMBSTONED
          (some prev_opid_index)],
        updateStateMsg := none }
    else if report.has_error then
      { newPb := pb, persist := false, cstateAccepted := false, rpcs := [],
        updateStateMsg := none }
    else
      let replication_factor := tablePb.num_replicas
      match report.consensus_state with
      | none =>
        { newPb := pb, persist := false, cstateAccepted := false,
          rpcs := AlterSchemaRpcs tablePb.version report,
          updateStateMsg := none }
      | some rcs =>
        if rcs.committed_config.opid_index.isNone then
          { newPb := pb, persist := false, cstateAccepted := false, rpcs := [],
            updateStateMsg := none }
        else
          let cstate1 := DisregardIfNotMember rcs
          let transition := ShouldTransitionTabletToRunning flags pb report cstate1
          let pb1 := if transition then
              { pb with
                  state := TabletStatePB.RUNNING
                  state_msg := "Tablet reported with an active leader" }
            else pb
          if ConsensusStateUpdated cstate1 prev_cstate then
            if cstate1.current_term == prev_cstate.current_term &&
                !cstate1.leader_uuid.isEmpty &&
                !prev_cstate.leader_uuid.isEmpty &&
                !(cstate1.leader_uuid == prev_cstate.leader_uuid) then
              { newPb := pb1, persist := false, cstateAccepted := false,
                rpcs := [], updateStateMsg := none }
            else
              let cstate2 :=
                if cstate1.current_term == prev_cstate.current_term &&
                    cstate1.leader_uuid.isEmpty &&
                    !prev_cstate.leader_uuid.isEmpty then
                  { cstate1 with leader_uuid := prev_cstate.leader_uuid }
                else cstate1
              let persistedCstate :=
                { cstate2 with
                    committed_config := StripHealthReports
                      cstate2.committed_config }
              let pb2 := { pb1 with consensus_state := some persistedCstate }
              { newPb := pb2, persist := true, cstateAccepted := true,
                rpcs := TombstoneEvictedPeers flags prev_cstate cstate2 ++
                  ConfigChangeRpcs flags policy ts_uuid replication_factor
                    cstate2 true ++
                  AlterSchemaRpcs tablePb.version report,
                updateStateMsg := none }
          else
            { newPb := pb1, persist := transition, cstateAccepted := false,
              rpcs := ConfigChangeRpcs flags policy ts_uuid replication_factor
                  cstate1 false ++
                AlterSchemaRpcs tablePb.version report,
              updateStateMsg := none }

/-- TableInfo::IsAlterInProgress: the lowest key of the schema-version-count
multiset (equivalently, the lowest reported version among the table's
tablets, with sentinel -1 for NOT_YET_REPORTED) is below the given version;
false when the table has no tablets. -/
def IsAlterInProgress (st : CatalogState) (table : TableInfo)
    (version : Nat) : Bool :=
  table.tablet_ids.any (fun tid =>
    match alookup st.tablet_map tid with
    | some t => decide (t.reported_schema_version < (version : Int))
    | none => false)

/-- CatalogManager::HandleTabletSchemaVersionReport: record the reported
schema version in the tablet's volatile state and, when the table is mid
alter and every tablet has caught up, flip it ALTERING to RUNNING, clearing
fully_applied_schema; the transition is written to the system catalog first
and on write failure the function merely returns, leaving the table record
unchanged and surfacing no error. -/
def HandleTabletSchemaVersionReport (tableWriteOk : Bool) (st : CatalogState)
    (tablet_id : String) (version : Nat) : CatalogState :=
  match alookup st.tablet_map tablet_id with
  | none => st
  | some t =>
    let updated := { t with reported_schema_version := (version : Int) }
    let st1 := { st with tablet_map := ainsert st.tablet_map tablet_id updated }
    match alookup st1.table_ids_map t.pb.table_id with
    | none => st1
    | some table =>
      if table.pb.is_deleted ∨ table.pb.state ≠ TableStatePB.ALTERING then st1
      else if IsAlterInProgress st1 table table.pb.version then st1
      else
        let dirty : SysTablesEntryPB :=
          { table.pb with
              fully_applied_schema := none
              state := TableStatePB.RUNNING
              state_msg := "Current schema version" }
        if ¬ tableWriteOk then st1
        else
          let committedTable := { table with pb := dirty }
          { st1 with table_ids_map :=
              (ainsert st1.table_ids_map table.id committedTable) }

/-- One iteration of step 1 of ProcessTabletReport: skip unknown tablet ids
(logged only); otherwise install the report in the entry map, overwriting an
earlier entry for the same tablet id in place. -/
def collectStep (st : CatalogState)
    (acc : List (String × ReportedTabletPB)) (r : ReportedTabletPB) :
    List (String × ReportedTabletPB) :=
  match alookup st.tablet_map r.tablet_id with
  | none => acc
  | some _ =>
    if (alookup acc r.tablet_id).isSome then
      acc.map (fun e => if e.fst == r.tablet_id then (r.tablet_id, r) else e)
    else acc ++ [(r.tablet_id, r)]

/-- Step 1 of ProcessTabletReport: build the tablet-id to report map, in
which a later entry for the same tablet id overwrites the earlier one, so
that only the last duplicate is processed. -/
def CollectReports (st : CatalogState) (reports : List ReportedTabletPB) :
    List (String × ReportedTabletPB) :=
  reports.foldl (collectStep st) []

/-- Outcome of ProcessTabletReport: status, resulting committed directory,
the tablet ids of the response update records (one per report entry, in
order), the RPCs dispatched at step 14 (none when the write failed), and the
tablet records passed to the main system-catalog write. -/
structure ReportOutcome where
  res : Option HandlerError
  st : CatalogState
  updates : List String
  rpcs : List ReportRpc
  written : List SysTabletsEntryPB
deriving DecidableEq, Repr

/-- CatalogManager::ProcessTabletReport.  writeOk is the outcome of the main
write of mutated tablets (step 11); tableWriteOk the outcome of the table
writes performed inside HandleTabletSchemaVersionReport during step 13.  The
source iterates the entry map in unspecified hash order; entries concern
distinct tablets, so the model fixes first-occurrence order. -/
def ProcessTabletReport (flags : MasterFlags)
    (policy : ReplicaManagementPolicy) (ts_uuid : String) (st : CatalogState)
    (reports : List ReportedTabletPB) (writeOk tableWriteOk : Bool) :
    ReportOutcome :=
  let updates := reports.map (fun r => r.tablet_id)
  let entries := CollectReports st reports
  let outs : List (String × EntryOutcome) := entries.filterMap (fun e =>
    match alookup st.tablet_map e.fst with
    | none => none
    | some tablet =>
      match alookup st.table_ids_map tablet.pb.table_id with
      | none => none
      | some table =>
        some (e.fst, ProcessReportEntry flags policy ts_uuid table.pb tablet
          e.snd))
  let mutated : List (String × SysTabletsEntryPB) := outs.filterMap (fun e =>
    if e.snd.persist then some (e.fst, e.snd.newPb) else none)
  if ¬ writeOk then
    ⟨some .writeFailed, st, updates, [], mutated.map Prod.snd⟩
  else
    let dirtyAll : List (String × SysTabletsEntryPB) :=
      outs.map (fun e => (e.fst, e.snd.newPb))
    let st1 := { st with tablet_map :=
        (commitTabletDirties st.tablet_map dirtyAll) }
    let st2 := entries.foldl (fun s e =>
      match e.snd.schema_version with
      | some v => HandleTabletSchemaVersionReport tableWriteOk s e.fst v
      | none => s) st1
    let rpcs := (outs.map (fun e => e.snd.rpcs)).flatten
    ⟨none, st2, updates, rpcs, mutated.map Prod.snd⟩

/-! ## Concrete fixtures used by witnesses and counterexamples -/

/-- Default flag values of the source (see the gflag definitions). -/
def testFlags : MasterFlags :=
  { default_num_replicas := 3
    allow_unsafe_replication_factor := false
    max_num_replicas := 7
    max_create_tablets_per_ts := 20
    catalog_manager_check_ts_count_for_create_table := true
    master_tombstone_evicted_tablet_replicas := true
    master_add_server_when_underreplicated := true
    raft_prepare_replacement_before_eviction := false
    raft_attempt_to_replace_replica_without_majority := false
    catalog_manager_evict_excess_replicas := true
    catalog_manager_wait_for_new_tablets_to_elect_leader := true }

/-- Empty directory. -/
def emptyState : CatalogState := ⟨[], [], [], []⟩

/-- Policy stub that never recommends a config change. -/
def nullPolicy : ReplicaManagementPolicy :=
  ⟨fun _ _ _ _ => none, fun _ _ _ => false⟩

/-! ## C8: retry backoff -/

/-- C8: for a retrying master-to-tablet-server RPC task in state RUNNING,
the retry delay equals the minimum of (remaining time to the task deadline
minus 10 ms) and (2 ^ (attempt + 3) ms capped at 60 s, plus a random jitter
of 0 to 49 ms); when that delay is non-positive the task is not rescheduled
and transitions to FAILED. -/
theorem C8_retry_backoff (deadlineMinusNowMs attempt : Int) (rand : Nat)
    (ha : 0 ≤ attempt) :
    RescheduleWithBackoffDelay .kStateRunning deadlineMinusNowMs attempt rand =
      (if min (deadlineMinusNowMs - 10)
            (min (2 ^ (attempt + 3).toNat) 60000 + ((rand % 50 : Nat) : Int))
          ≤ 0 then
        ⟨false, .kStateFailed, none⟩
      else
        ⟨true, .kStateRunning, some (min (deadlineMinusNowMs - 10)
          (min (2 ^ (attempt + 3).toNat) 60000 + ((rand % 50 : Nat) : Int)))⟩) ∧
    (0 : Int) ≤ ((rand % 50 : Nat) : Int) ∧
    ((rand % 50 : Nat) : Int) ≤ 49 := by
  refine ⟨?_, by positivity, ?_⟩
  · unfold RescheduleWithBackoffDelay
    rw [backoffBaseDelayMs_eq_min attempt ha]
    simp [min_comm (deadlineMinusNowMs - 10)]
  · have h : rand % 50 < 50 := Nat.mod_lt _ (by norm_num)
    omega

/-- Witness for C8 at a concrete input. -/
theorem C8_retry_backoff_witness :
    RescheduleWithBackoffDelay .kStateRunning 100000 2 7 =
      (if min ((100000 : Int) - 10)
            (min (2 ^ ((2 : Int) + 3).toNat) 60000 + ((7 % 50 : Nat) : Int))
          ≤ 0 then
        ⟨false, .kStateFailed, none⟩
      else
        ⟨true, .kStateRunning, some (min ((100000 : Int) - 10)
          (min (2 ^ ((2 : Int) + 3).toNat) 60000 + ((7 % 50 : Nat) : Int)))⟩) ∧
    (0 : Int) ≤ ((7 % 50 : Nat) : Int) ∧
    ((7 % 50 : Nat) : Int) ≤ 49 :=
  C8_retry_backoff 100000 2 7 (by norm_num)

/-! ## C6: replication-factor validation in CreateTable -/

/-- C6 counterexample: a request with num_replicas = 0 and the unsafe flag
off is rejected with EVEN_REPLICATION_FACTOR (the even check runs first),
not with ILLEGAL_REPLICATION_FACTOR as the claim demands for non-positive
values. -/
theorem C6_counterexample :
    (CreateTable testFlags 3 emptyState
        ⟨"t", some 0, 1, 1, [("", "")]⟩ "T1" ["t1"] true).res =
      some (.master .EVEN_REPLICATION_FACTOR) ∧
    MasterErrorCode.EVEN_REPLICATION_FACTOR ≠
      MasterErrorCode.ILLEGAL_REPLICATION_FACTOR := by
  decide

/-- C6 (amended): the replication-factor checks run in source order.  An even
num_replicas with the unsafe flag off fails with EVEN_REPLICATION_FACTOR
(this covers 0 and negative even values); otherwise num_replicas above
max_num_replicas fails with REPLICATION_FACTOR_TOO_HIGH; otherwise a
non-positive num_replicas fails with ILLEGAL_REPLICATION_FACTOR.  Each
rejection leaves the directory unchanged and writes nothing. -/
theorem C6_replication_factor_checks (flags : MasterFlags) (numLive : Int)
    (st : CatalogState) (req : CreateTableRequestPB) (tableId : String)
    (tabletIds : List String) (writeOk : Bool) :
    (req.num_replicas.getD flags.default_num_replicas % 2 = 0 ∧
        ¬ flags.allow_unsafe_replication_factor = true →
      CreateTable flags numLive st req tableId tabletIds writeOk =
        ⟨some (.master .EVEN_REPLICATION_FACTOR), st, none⟩) ∧
    (¬ (req.num_replicas.getD flags.default_num_replicas % 2 = 0 ∧
        ¬ flags.allow_unsafe_replication_factor = true) →
      req.num_replicas.getD flags.default_num_replicas >
          flags.max_num_replicas →
      CreateTable flags numLive st req tableId tabletIds writeOk =
        ⟨some (.master .REPLICATION_FACTOR_TOO_HIGH), st, none⟩) ∧
    (¬ (req.num_replicas.getD flags.default_num_replicas % 2 = 0 ∧
        ¬ flags.allow_unsafe_replication_factor = true) →
      ¬ req.num_replicas.getD flags.default_num_replicas >
          flags.max_num_replicas →
      req.num_replicas.getD flags.default_num_replicas ≤ 0 →
      CreateTable flags numLive st req tableId tabletIds writeOk =
        ⟨some (.master .ILLEGAL_REPLICATION_FACTOR), st, none⟩) := by
  refine ⟨fun h1 => ?_, fun h1 h2 => ?_, fun h1 h2 h3 => ?_⟩
  · simp only [CreateTable]
    rw [if_pos h1]
  · simp only [CreateTable]
    rw [if_neg h1, if_pos h2]
  · simp only [CreateTable]
    rw [if_neg h1, if_neg h2, if_pos h3]

/-- Witness for C6 (amended): an odd negative num_replicas is rejected with
ILLEGAL_REPLICATION_FACTOR. -/
theorem C6_replication_factor_checks_witness :
    CreateTable testFlags 3 emptyState
        ⟨"t", some (-3), 1, 1, [("", "")]⟩ "T1" ["t1"] true =
      ⟨some (.master .ILLEGAL_REPLICATION_FACTOR), emptyState, none⟩ :=
  (C6_replication_factor_checks testFlags 3 emptyState
      ⟨"t", some (-3), 1, 1, [("", "")]⟩ "T1" ["t1"] true).2.2
    (by decide) (by decide) (by decide)

/-! ## C10: states persisted and published by CreateTable -/

/-- C10: a successful CreateTable builds the table record in PREPARING
(CreateTableInfo), flips the in-flight dirty copy to RUNNING before the
system-catalog write, and persists and publishes the table as RUNNING while
every new tablet is persisted and published in PREPARING. -/
theorem C10_create_table_published_states (flags : MasterFlags)
    (numLive : Int) (st : CatalogState) (req : CreateTableRequestPB)
    (tableId : String) (tabletIds : List String)
    (h1 : ¬ (req.num_replicas.getD flags.default_num_replicas % 2 = 0 ∧
      ¬ flags.allow_unsafe_replication_factor = true))
    (h2 : ¬ req.num_replicas.getD flags.default_num_replicas >
      flags.max_num_replicas)
    (h3 : ¬ req.num_replicas.getD flags.default_num_replicas ≤ 0)
    (h4 : ¬ (req.num_replicas.getD flags.default_num_replicas > 1 ∧
      flags.max_create_tablets_per_ts * numLive > 0 ∧
      (req.partitions.length : Int) > flags.max_create_tablets_per_ts * numLive))
    (h5 : ¬ (flags.catalog_manager_check_ts_count_for_create_table = true ∧
      req.num_replicas.getD flags.default_num_replicas > numLive))
    (h6 : ¬ (alookup st.table_names_map req.name).isSome = true)
    (h7 : ¬ req.name ∈ st.reserved_table_names) :
    CreateTable flags numLive st req tableId tabletIds true =
      ⟨none,
       { table_ids_map := ainsert st.table_ids_map tableId
           ⟨tableId,
            { CreateTableInfo req
                (req.num_replicas.getD flags.default_num_replicas) with
                state := .RUNNING },
            tabletIds⟩
         table_names_map := ainsert st.table_names_map req.name tableId
         tablet_map := ((tabletIds.zip
             (req.partitions.map (CreateTabletInfo tableId))).map
               (fun e => (e.fst, TabletInfo.mk e.fst e.snd (-1)))).foldl
           (fun m e => ainsert m e.fst e.snd) st.tablet_map
         reserved_table_names := st.reserved_table_names },
       some
         { table_to_add := some
             { CreateTableInfo req
                 (req.num_replicas.getD flags.default_num_replicas) with
                 state := .RUNNING }
           table_to_update := none
           tablets_to_add := req.partitions.map (CreateTabletInfo tableId)
           tablets_to_update := [] }⟩ ∧
    (CreateTableInfo req
        (req.num_replicas.getD flags.default_num_replicas)).state =
      .PREPARING ∧
    ({ CreateTableInfo req
         (req.num_replicas.getD flags.default_num_replicas) with
         state := .RUNNING } : SysTablesEntryPB).state = .RUNNING ∧
    ∀ t ∈ req.partitions.map (CreateTabletInfo tableId),
      t.state = TabletStatePB.PREPARING := by
  refine ⟨?_, rfl, rfl, ?_⟩
  · simp only [CreateTable]
    rw [if_neg h1, if_neg h2, if_neg h3, if_neg h4, if_neg h5, if_neg h6,
      if_neg h7]
    simp
  · intro t ht
    rcases List.mem_map.mp ht with ⟨p, _, rfl⟩
    rfl

/-- Witness for C10 at a concrete input. -/
theorem C10_create_table_published_states_witness :
    (CreateTable testFlags 3 emptyState
        ⟨"t", some 3, 1, 1, [("", "")]⟩ "T1" ["t1"] true).res = none ∧
    ((CreateTable testFlags 3 emptyState
        ⟨"t", some 3, 1, 1, [("", "")]⟩ "T1" ["t1"] true).written.map
      (fun a => a.table_to_add.map SysTablesEntryPB.state)) =
      some (some .RUNNING) := by
  have h := C10_create_table_published_states testFlags 3 emptyState
    ⟨"t", some 3, 1, 1, [("", "")]⟩ "T1" ["t1"]
    (by decide) (by decide) (by decide) (by decide) (by decide)
    (by decide) (by decide)
  rw [h.1]
  exact ⟨rfl, rfl⟩

/-! ## C7: IsCreateTableDone -/

/-- C7: for an existing, non-deleted, running table, IsCreateTableDone
returns done = true iff every child tablet in the table's tablet map has
committed state RUNNING. -/
theorem C7_is_create_table_done (st : CatalogState)
    (ident : TableIdentifierPB) (table : TableInfo)
    (hfind : FindTable st ident = .ok (some table))
    (hdel : ¬ table.pb.is_deleted)
    (hrun : table.pb.is_running) :
    ∃ b, IsCreateTableDone st ident = .ok b ∧
      (b = true ↔ ∀ tid ∈ table.tablet_ids, ∀ t,
        alookup st.tablet_map tid = some t →
        t.pb.state = TabletStatePB.RUNNING) := by
  refine ⟨decide (¬ IsCreateInProgress st table), ?_, ?_⟩
  · unfold IsCreateTableDone
    rw [hfind]
    dsimp only
    rw [if_neg hdel, if_neg (not_not_intro hrun)]
  · rw [decide_eq_true_iff]
    simp only [IsCreateInProgress, SysTabletsEntryPB.is_running]
    push_neg
    tauto

/-- Fixture for the C7 witness: a running table with two running tablets. -/
def c7TablePb : SysTablesEntryPB :=
  { state := .RUNNING, state_msg := "", name := "c7", version := 0,
    next_column_id := 0, num_replicas := 3, schema := 0,
    fully_applied_schema := none, partition_schema := 0 }

/-- Fixture tablet for the C7 witness. -/
def c7Tablet (i : String) : TabletInfo :=
  ⟨i, { state := .RUNNING, state_msg := "", table_id := "T7",
        partition_key_start := "", partition_key_end := "",
        consensus_state := none }, -1⟩

/-- Fixture state for the C7 witness. -/
def c7State : CatalogState :=
  ⟨[("T7", ⟨"T7", c7TablePb, ["t1", "t2"]⟩)], [("c7", "T7")],
   [("t1", c7Tablet "t1"), ("t2", c7Tablet "t2")], []⟩

/-- Witness for C7 at a concrete input. -/
theorem C7_is_create_table_done_witness :
    ∃ b, IsCreateTableDone c7State ⟨some "T7", none⟩ = .ok b ∧
      (b = true ↔ ∀ tid ∈ (⟨"T7", c7TablePb, ["t1", "t2"]⟩ :
          TableInfo).tablet_ids, ∀ t,
        alookup c7State.tablet_map tid = some t →
        t.pb.state = TabletStatePB.RUNNING) :=
  C7_is_create_table_done c7State ⟨some "T7", none⟩
    ⟨"T7", c7TablePb, ["t1", "t2"]⟩ (by rfl) (by decide) (by decide)

/-! ## C4: fully_applied_schema during ALTERING -/

theorem alookup_ainsert {α : Type} (m : List (String × α)) (k : String)
    (v : α) : alookup (ainsert m k v) k = some v := by
  simp [alookup, ainsert]

/-- Fixture table record for C4: running, schema token 7, no alter in
flight. -/
def c4TablePb : SysTablesEntryPB :=
  { state := .RUNNING, state_msg := "", name := "a", version := 1,
    next_column_id := 0, num_replicas := 3, schema := 7,
    fully_applied_schema := none, partition_schema := 0 }

/-- Fixture tablet for C4. -/
def c4Tablet : TabletInfo :=
  ⟨"t1", { state := .RUNNING, state_msg := "", table_id := "T4",
           partition_key_start := "", partition_key_end := "",
           consensus_state := none }, -1⟩

/-- Fixture state for C4: one running table with one tablet. -/
def c4State : CatalogState :=
  ⟨[("T4", ⟨"T4", c4TablePb, ["t1"]⟩)], [("a", "T4")], [("t1", c4Tablet)], []⟩

/-- Rename-only alter request for C4: no schema steps, no partition steps. -/
def c4RenameReq : AlterTableRequest :=
  ⟨⟨some "T4", none⟩, false, 0, 0, some "b", false, [], []⟩

/-- C4 counterexample: a rename-only AlterTable of a table with an existing
tablet leaves the table ALTERING with fully_applied_schema present but EQUAL
to schema, contradicting the claim that they always differ. -/
theorem C4_counterexample :
    ((alookup (AlterTable c4State c4RenameReq true).st.table_ids_map
        "T4").map (fun t =>
          (t.pb.state, t.pb.fully_applied_schema, t.pb.schema))) =
      some (TableStatePB.ALTERING, some 7, 7) ∧
    (AlterTable c4State c4RenameReq true).res = none := by
  decide

/-- C4 (amended): after an AlterTable whose metadata changes (schema steps or
a rename) apply to existing tablets and that starts with no alter in flight,
the table is ALTERING and fully_applied_schema is present, holding the
pre-alter schema; the new schema field is the altered schema when there were
schema steps, and the unchanged schema on a rename-only alter, in which case
fully_applied_schema equals schema. -/
theorem C4_altering_fully_applied_schema (st : CatalogState)
    (req : AlterTableRequest) (table : TableInfo)
    (hfind : FindTable st req.table = .ok (some table))
    (hdel : ¬ table.pb.is_deleted)
    (hrc : (match req.new_table_name with
      | some nm => (alookup st.table_names_map nm).isSome ||
          st.reserved_table_names.contains nm
      | none => false) = false)
    (hmd : (req.has_schema_changes || req.new_table_name.isSome) = true)
    (hcount : table.tablet_ids.length > req.tablets_to_drop_ids.length)
    (hfa : table.pb.fully_applied_schema = none) :
    ∃ ti, alookup (AlterTable st req true).st.table_ids_map table.id =
        some ti ∧
      ti.pb.state = .ALTERING ∧
      ti.pb.fully_applied_schema = some table.pb.schema ∧
      ti.pb.schema =
        (if req.has_schema_changes then req.new_schema else table.pb.schema) ∧
      (AlterTable st req true).res = none := by
  cases hnm : req.new_table_name with
  | none =>
    have hsc : req.has_schema_changes = true := by
      simpa [hnm] using hmd
    simp only [AlterTable, hfind, hnm, hsc, hrc, hfa, hcount, hdel]
    simp [alookup_ainsert, decide_eq_true hcount, hnm, hsc, hfa]
  | some nm =>
    rw [hnm] at hrc
    have hrc1 : ¬ ((alookup st.table_names_map nm).isSome = true ∨
        nm ∈ st.reserved_table_names) := by
      simp only [Bool.or_eq_false_iff] at hrc
      push_neg
      exact ⟨by simp [hrc.1], by simpa using hrc.2⟩
    rcases hsc : req.has_schema_changes with _ | _ <;>
    · simp only [AlterTable, hfind, hnm, hsc]
      simp [alookup_ainsert, hrc1, decide_eq_true hcount, hfa, hdel]

/-- Witness for C4 (amended) at the rename-only fixture. -/
theorem C4_altering_fully_applied_schema_witness :
    ∃ ti, alookup (AlterTable c4State c4RenameReq true).st.table_ids_map
        (⟨"T4", c4TablePb, ["t1"]⟩ : TableInfo).id = some ti ∧
      ti.pb.state = .ALTERING ∧
      ti.pb.fully_applied_schema = some c4TablePb.schema ∧
      ti.pb.schema = (if c4RenameReq.has_schema_changes then
        c4RenameReq.new_schema else c4TablePb.schema) ∧
      (AlterTable c4State c4RenameReq true).res = none :=
  C4_altering_fully_applied_schema c4State c4RenameReq
    ⟨"T4", c4TablePb, ["t1"]⟩ (by rfl) (by decide) (by decide) (by decide)
    (by decide) (by decide)

/-! ## C5: treatment of a reported leader that is not a voter -/

/-- Fixture peers for C5: the reported leader N is a NON_VOTER member. -/
def c5Peers : List RaftPeerPB :=
  [⟨"N", .NON_VOTER, false⟩, ⟨"A", .VOTER, false⟩, ⟨"B", .VOTER, false⟩]

/-- Fixture cached consensus state for C5. -/
def c5PrevCs : ConsensusStatePB := ⟨1, "", ⟨some 5, c5Peers⟩, false⟩

/-- Fixture reported consensus state for C5, naming the non-voter N as
leader. -/
def c5RepCs : ConsensusStatePB := ⟨1, "N", ⟨some 6, c5Peers⟩, false⟩

/-- Fixture table record for C5. -/
def c5TablePb : SysTablesEntryPB :=
  { state := .RUNNING, state_msg := "", name := "c5", version := 0,
    next_column_id := 0, num_replicas := 3, schema := 0,
    fully_applied_schema := none, partition_schema := 0 }

/-- Fixture tablet for C5, still CREATING. -/
def c5Tablet : TabletInfo :=
  ⟨"t1", { state := .CREATING, state_msg := "", table_id := "T5",
           partition_key_start := "", partition_key_end := "",
           consensus_state := some c5PrevCs }, -1⟩

/-- Fixture report for C5. -/
def c5Report : ReportedTabletPB :=
  ⟨"t1", .RUNNING, .TABLET_DATA_READY, false, some c5RepCs, none⟩

/-- C5 counterexample: a reported leader that is only a NON_VOTER member of
the reported committed config is NOT disregarded: the CREATING tablet is
transitioned to RUNNING and the consensus state is accepted, contradicting
the claim that a non-voter leader is treated as no leader. -/
theorem C5_counterexample :
    (ProcessReportEntry testFlags nullPolicy "A" c5TablePb c5Tablet
      c5Report).newPb.state = TabletStatePB.RUNNING ∧
    (ProcessReportEntry testFlags nullPolicy "A" c5TablePb c5Tablet
      c5Report).cstateAccepted = true ∧
    c5RepCs.leader_uuid = "N" ∧
    (c5RepCs.committed_config.peers.filter (fun p =>
      p.member_type == RaftMemberType.VOTER)).all
      (fun p => p.permanent_uuid != "N") = true := by
  decide

/-- C5 (amended): the reported leader is disregarded exactly when it is not a
MEMBER (of any type) of the reported committed config; the filter never
touches the config itself, and a leader that is a member, even as a
NON_VOTER, is used for the RUNNING transition. -/
theorem C5_leader_membership_filter (cs : ConsensusStatePB)
    (flags : MasterFlags) (tabletPb : SysTabletsEntryPB)
    (report : ReportedTabletPB) :
    ((DisregardIfNotMember cs).leader_uuid = "" ↔
      (cs.leader_uuid = "" ∨
        ¬ IsRaftConfigMember cs.leader_uuid cs.committed_config)) ∧
    (DisregardIfNotMember cs).committed_config = cs.committed_config ∧
    (¬ tabletPb.is_running → report.state = TsTabletState.RUNNING →
      flags.catalog_manager_wait_for_new_tablets_to_elect_leader = true →
      cs.leader_uuid ≠ "" →
      IsRaftConfigMember cs.leader_uuid cs.committed_config →
      ShouldTransitionTabletToRunning flags tabletPb report cs = true) := by
  refine ⟨?_, ?_, ?_⟩
  · unfold DisregardIfNotMember
    by_cases h : cs.leader_uuid.isEmpty ||
        !(decide (IsRaftConfigMember cs.leader_uuid cs.committed_config))
    · rw [if_pos h]
      simp only [Bool.or_eq_true, Bool.not_eq_true', decide_eq_false_iff_not,
        String.isEmpty_iff] at h
      simpa using h
    · rw [if_neg h]
      simp only [Bool.or_eq_true, Bool.not_eq_true', decide_eq_false_iff_not,
        String.isEmpty_iff, not_or, not_not] at h
      simp [h.1, h.2]
  · unfold DisregardIfNotMember
    split <;> rfl
  · intro h1 h2 h3 h4 h5
    unfold ShouldTransitionTabletToRunning
    rw [if_neg h1, if_neg (not_not_intro h2)]
    rw [h3]
    have hne : cs.leader_uuid.isEmpty = false := by
      rw [← Bool.not_eq_true, String.isEmpty_iff]
      exact h4
    simp [hne, h5]

/-- Witness for C5 (amended) at the concrete non-voter-leader fixture. -/
theorem C5_leader_membership_filter_witness :
    ((DisregardIfNotMember c5RepCs).leader_uuid = "" ↔
      (c5RepCs.leader_uuid = "" ∨
        ¬ IsRaftConfigMember c5RepCs.leader_uuid c5RepCs.committed_config)) ∧
    (DisregardIfNotMember c5RepCs).committed_config =
      c5RepCs.committed_config ∧
    ShouldTransitionTabletToRunning testFlags c5Tablet.pb c5Report c5RepCs =
      true :=
  ⟨(C5_leader_membership_filter c5RepCs testFlags c5Tablet.pb c5Report).1,
   (C5_leader_membership_filter c5RepCs testFlags c5Tablet.pb c5Report).2.1,
   (C5_leader_membership_filter c5RepCs testFlags c5Tablet.pb c5Report).2.2
     (by decide) (by decide) (by decide) (by decide) (by decide)⟩

/-! ## C3: consensus-state acceptance condition -/

/-- Fixture peers for C3: three voters. -/
def c3Peers : List RaftPeerPB :=
  [⟨"A", .VOTER, false⟩, ⟨"B", .VOTER, false⟩, ⟨"C", .VOTER, false⟩]

/-- Fixture cached consensus state for C3. -/
def c3PrevCs : ConsensusStatePB := ⟨1, "", ⟨some 5, c3Peers⟩, false⟩

/-- Fixture reported consensus state for C3: the term increased but no leader
is named and the committed opid-index did not advance. -/
def c3RepCs : ConsensusStatePB := ⟨2, "", ⟨some 5, c3Peers⟩, false⟩

/-- Fixture table record for C3. -/
def c3TablePb : SysTablesEntryPB :=
  { state := .RUNNING, state_msg := "", name := "c3", version := 0,
    next_column_id := 0, num_replicas := 3, schema := 0,
    fully_applied_schema := none, partition_schema := 0 }

/-- Fixture tablet for C3, already running with the cached state. -/
def c3Tablet : TabletInfo :=
  ⟨"t1", { state := .RUNNING, state_msg := "", table_id := "T3",
           partition_key_start := "", partition_key_end := "",
           consensus_state := some c3PrevCs }, -1⟩

/-- Fixture report for C3. -/
def c3Report : ReportedTabletPB :=
  ⟨"t1", .RUNNING, .TABLET_DATA_READY, false, some c3RepCs, none⟩

/-- Fixture directory containing the C3 table and tablet. -/
def c3State : CatalogState :=
  ⟨[("T3", ⟨"T3", c3TablePb, ["t1"]⟩)], [("c3", "T3")], [("t1", c3Tablet)], []⟩

/-- C3 counterexample: a report whose term increased but that names no
leader and whose committed opid-index did not advance is NOT accepted: the
cached record is unchanged, contradicting the claim that a term increase
alone suffices. -/
theorem C3_counterexample :
    (ProcessReportEntry testFlags nullPolicy "A" c3TablePb c3Tablet
      c3Report).cstateAccepted = false ∧
    (ProcessReportEntry testFlags nullPolicy "A" c3TablePb c3Tablet
      c3Report).newPb = c3Tablet.pb ∧
    c3RepCs.current_term > c3PrevCs.current_term ∧
    ¬ c3RepCs.committed_config.opidIndex >
      c3PrevCs.committed_config.opidIndex ∧
    c3RepCs.leader_uuid = "" := by
  decide

/-- C3 (amended): the consensus state is accepted iff the committed
opid-index advanced, or the new state (after the leader-membership filter)
names a leader and either the previous state named none or the term
increased; in particular a term increase without a named leader does not
suffice.  An entry whose consensus state is accepted always satisfies this
condition. -/
theorem C3_consensus_acceptance (cstate prev : ConsensusStatePB) :
    (ConsensusStateUpdated cstate prev = true ↔
      (cstate.committed_config.opidIndex > prev.committed_config.opidIndex ∨
        (cstate.leader_uuid ≠ "" ∧
          (prev.leader_uuid = "" ∨ cstate.current_term > prev.current_term)))) ∧
    (∀ (flags : MasterFlags) (policy : ReplicaManagementPolicy)
        (ts : String) (tablePb : SysTablesEntryPB) (tablet : TabletInfo)
        (report : ReportedTabletPB) (rcs : ConsensusStatePB),
      report.consensus_state = some rcs →
      (ProcessReportEntry flags policy ts tablePb tablet
        report).cstateAccepted = true →
      ConsensusStateUpdated (DisregardIfNotMember rcs) tablet.pb.cstate =
        true) := by
  constructor
  · unfold ConsensusStateUpdated
    have hne : ∀ s : String, s.isEmpty = false ↔ s ≠ "" := by
      intro s
      rw [← Bool.not_eq_true, String.isEmpty_iff]
    simp only [Bool.or_eq_true, Bool.and_eq_true, decide_eq_true_iff,
      Bool.not_eq_true', String.isEmpty_iff, hne]
  · intro flags policy ts tablePb tablet report rcs hcs hacc
    unfold ProcessReportEntry at hacc
    rw [hcs] at hacc
    dsimp only at hacc
    repeat' split at hacc
    all_goals simp_all

/-- Witness for C3 (amended): the opid-advance case is accepted, both in the
characterization and through an actual accepted entry. -/
theorem C3_consensus_acceptance_witness :
    ConsensusStateUpdated c5RepCs c5PrevCs = true ∧
    ConsensusStateUpdated (DisregardIfNotMember c5RepCs) c5Tablet.pb.cstate =
      true :=
  ⟨(C3_consensus_acceptance c5RepCs c5PrevCs).1.mpr (by decide),
   (C3_consensus_acceptance c5RepCs c5PrevCs).2 testFlags nullPolicy "A"
     c5TablePb c5Tablet c5Report c5RepCs (by rfl) (by decide)⟩

/-! ## C2: CAS index of the tombstone RPCs for removed peers -/

/-- Fixture cached consensus state for C2: committed opid-index 5 with three
peers. -/
def c2PrevCs : ConsensusStatePB := ⟨1, "A", ⟨some 5, c3Peers⟩, false⟩

/-- Fixture reported consensus state for C2: committed opid-index 6, peer C
removed. -/
def c2RepCs : ConsensusStatePB :=
  ⟨1, "A", ⟨some 6, [⟨"A", .VOTER, false⟩, ⟨"B", .VOTER, false⟩]⟩, false⟩

/-- Fixture table record for C2. -/
def c2TablePb : SysTablesEntryPB :=
  { state := .RUNNING, state_msg := "", name := "c2", version := 0,
    next_column_id := 0, num_replicas := 3, schema := 0,
    fully_applied_schema := none, partition_schema := 0 }

/-- Fixture tablet for C2. -/
def c2Tablet : TabletInfo :=
  ⟨"t1", { state := .RUNNING, state_msg := "", table_id := "T2",
           partition_key_start := "", partition_key_end := "",
           consensus_state := some c2PrevCs }, -1⟩

/-- Fixture report for C2. -/
def c2Report : ReportedTabletPB :=
  ⟨"t1", .RUNNING, .TABLET_DATA_READY, false, some c2RepCs, none⟩

/-- C2 counterexample: an accepted update removing peer C schedules
DeleteTablet(TOMBSTONED) with CAS opid-index 5, the PREVIOUS committed
config's index, not 6, the new one demanded by the claim. -/
theorem C2_counterexample :
    (ProcessReportEntry testFlags nullPolicy "A" c2TablePb c2Tablet
      c2Report).cstateAccepted = true ∧
    (ProcessReportEntry testFlags nullPolicy "A" c2TablePb c2Tablet
      c2Report).rpcs =
      [ReportRpc.deleteReplica "C" .TABLET_DATA_TOMBSTONED (some 5),
       ReportRpc.addReplica .VOTER] ∧
    c2RepCs.committed_config.opidIndex = 6 ∧ (5 : Int) ≠ 6 := by
  decide

theorem tombstone_leader_irrel (flags : MasterFlags)
    (prev c : ConsensusStatePB) (x : String) :
    TombstoneEvictedPeers flags prev { c with leader_uuid := x } =
      TombstoneEvictedPeers flags prev c := rfl

/-- C2 (amended): for every peer of the OLD committed config absent from the
new one, the scheduled DeleteTablet(TOMBSTONED) carries a CAS opid-index
equal to the OLD committed config's opid-index (the message text, not the
CAS, names the new index); every such RPC is queued by an accepted entry. -/
theorem C2_tombstone_cas_prev_index :
    (∀ (flags : MasterFlags) (prev_cstate cstate : ConsensusStatePB)
        (p : RaftPeerPB),
      flags.master_tombstone_evicted_tablet_replicas = true →
      p ∈ prev_cstate.committed_config.peers →
      ¬ IsRaftConfigMember p.permanent_uuid cstate.committed_config →
      ReportRpc.deleteReplica p.permanent_uuid .TABLET_DATA_TOMBSTONED
          (some prev_cstate.committed_config.opidIndex) ∈
        TombstoneEvictedPeers flags prev_cstate cstate) ∧
    (∀ (flags : MasterFlags) (policy : ReplicaManagementPolicy) (ts : String)
        (tablePb : SysTablesEntryPB) (tablet : TabletInfo)
        (report : ReportedTabletPB) (rcs : ConsensusStatePB),
      report.consensus_state = some rcs →
      (ProcessReportEntry flags policy ts tablePb tablet
          report).cstateAccepted = true →
      ∀ rpc ∈ TombstoneEvictedPeers flags tablet.pb.cstate
          (DisregardIfNotMember rcs),
        rpc ∈ (ProcessReportEntry flags policy ts tablePb tablet
          report).rpcs) := by
  constructor
  · intro flags prev_cstate cstate p hf hp hnot
    unfold TombstoneEvictedPeers
    rw [if_pos hf]
    refine List.mem_map.mpr ⟨p, List.mem_filter.mpr ⟨hp, ?_⟩, rfl⟩
    simpa using hnot
  · intro flags policy ts tablePb tablet report rcs hcs
    unfold ProcessReportEntry
    rw [hcs]
    dsimp only
    repeat' split
    all_goals intro hacc rpc hr
    all_goals first
      | exact List.mem_append_left _ (List.mem_append_left _ hr)
      | simp at hacc

/-- Witness for C2 (amended) at the concrete fixture. -/
theorem C2_tombstone_cas_prev_index_witness :
    ReportRpc.deleteReplica "C" .TABLET_DATA_TOMBSTONED (some 5) ∈
      TombstoneEvictedPeers testFlags c2PrevCs c2RepCs ∧
    ReportRpc.deleteReplica "C" .TABLET_DATA_TOMBSTONED (some 5) ∈
      (ProcessReportEntry testFlags nullPolicy "A" c2TablePb c2Tablet
        c2Report).rpcs :=
  ⟨by
    have h := C2_tombstone_cas_prev_index.1 testFlags c2PrevCs c2RepCs
      ⟨"C", .VOTER, false⟩ (by decide) (by decide) (by decide)
    simpa using h,
   C2_tombstone_cas_prev_index.2 testFlags nullPolicy "A" c2TablePb c2Tablet
     c2Report c2RepCs (by rfl) (by decide)
     (ReportRpc.deleteReplica "C" .TABLET_DATA_TOMBSTONED (some 5))
     (by decide)⟩

/-! ## C9: duplicate entries in one report batch -/

theorem alookup_overwrite_self {α : Type} (m : List (String × α)) (k : String)
    (v : α) (h : (alookup m k).isSome = true) :
    alookup (m.map (fun e => if e.fst == k then (k, v) else e)) k = some v := by
  induction m with
  | nil => simp [alookup] at h
  | cons e m ih =>
    simp only [List.map_cons, alookup] at h ⊢
    by_cases he : e.fst == k
    · rw [if_pos he]
      simp
    · rw [if_neg he] at h
      rw [if_neg he, if_neg he]
      exact ih h

theorem alookup_overwrite_ne {α : Type} (m : List (String × α))
    (k k2 : String) (v : α) (h : ¬ k2 = k) :
    alookup (m.map (fun e => if e.fst == k then (k, v) else e)) k2 =
      alookup m k2 := by
  induction m with
  | nil => rfl
  | cons e m ih =>
    simp only [List.map_cons, alookup]
    by_cases he : e.fst == k
    · have hek : e.fst = k := by simpa using he
      have h1 : (k == k2) = false := by
        simp only [beq_eq_false_iff_ne, ne_eq]
        exact fun hh => h hh.symm
      have h2 : (e.fst == k2) = false := by
        rw [hek]
        exact h1
      rw [if_pos he]
      rw [if_neg (by simp [h1]), if_neg (by simp [h2])]
      exact ih
    · rw [if_neg he]
      by_cases he2 : e.fst == k2
      · rw [if_pos he2, if_pos he2]
      · rw [if_neg he2, if_neg he2]
        exact ih

theorem alookup_append_one {α : Type} (m : List (String × α))
    (k k2 : String) (v : α) :
    alookup (m ++ [(k, v)]) k2 =
      match alookup m k2 with
      | some w => some w
      | none => if k == k2 then some v else none := by
  induction m with
  | nil =>
    by_cases hk : k == k2 <;> simp [alookup, hk]
  | cons e m ih =>
    by_cases he : e.fst == k2 <;> simp [alookup, he, ih]

theorem alookup_collectStep (st : CatalogState)
    (acc : List (String × ReportedTabletPB)) (r : ReportedTabletPB)
    (id : String) :
    alookup (collectStep st acc r) id =
      if r.tablet_id = id ∧ (alookup st.tablet_map id).isSome = true
      then some r else alookup acc id := by
  unfold collectStep
  rcases hk : alookup st.tablet_map r.tablet_id with _ | t
  · by_cases hr : r.tablet_id = id
    · subst hr
      rw [hk]
      simp
    · simp [hr]
  · by_cases hs : (alookup acc r.tablet_id).isSome = true
    · rw [if_pos hs]
      by_cases hr : r.tablet_id = id
      · subst hr
        rw [alookup_overwrite_self _ _ _ hs, hk]
        simp
      · rw [alookup_overwrite_ne _ _ _ _ (fun h => hr h.symm)]
        simp [hr]
    · rw [if_neg hs]
      rw [alookup_append_one]
      by_cases hr : r.tablet_id = id
      · subst hr
        have : alookup acc r.tablet_id = none :=
          Option.not_isSome_iff_eq_none.mp hs
        rw [this, hk]
        simp
      · rcases ha : alookup acc id with _ | w
        · simp [hr, (by simpa using hr : (r.tablet_id == id) = false)]
        · simp [hr]

theorem alookup_collect_fold (st : CatalogState) (id : String) :
    ∀ (l : List ReportedTabletPB) (acc : List (String × ReportedTabletPB)),
    alookup (l.foldl (collectStep st) acc) id =
      if (alookup st.tablet_map id).isSome = true
      then l.foldl (fun o r => if r.tablet_id = id then some r else o)
        (alookup acc id)
      else alookup acc id := by
  intro l
  induction l with
  | nil =>
    intro acc
    split <;> rfl
  | cons r l ih =>
    intro acc
    rw [List.foldl_cons, ih (collectStep st acc r), List.foldl_cons,
      alookup_collectStep]
    by_cases hk : (alookup st.tablet_map id).isSome = true
    · rw [if_pos hk, if_pos hk]
      by_cases hr : r.tablet_id = id <;> simp [hr, hk]
    · rw [if_neg hk, if_neg hk]
      by_cases hr : r.tablet_id = id <;> simp [hr, hk]

/-- The last entry in the batch carrying the given tablet id. -/
def lastReportFor (reports : List ReportedTabletPB) (id : String) :
    Option ReportedTabletPB :=
  reports.foldl (fun o r => if r.tablet_id = id then some r else o) none

/-- C9: every report entry, including ignored duplicates and entries for
unknown tablets, gets an update record in the response; the entry map
retains exactly the LAST entry for each known tablet id; and the resulting
catalog state, queued RPCs, written records and status depend on the batch
only through that entry map, so earlier duplicates have no effect. -/
theorem C9_duplicate_report_entries :
    (∀ (flags : MasterFlags) (policy : ReplicaManagementPolicy) (ts : String)
        (st : CatalogState) (reports : List ReportedTabletPB) (w tw : Bool),
      (ProcessTabletReport flags policy ts st reports w tw).updates =
        reports.map (fun r => r.tablet_id)) ∧
    (∀ (st : CatalogState) (reports : List ReportedTabletPB) (id : String),
      alookup (CollectReports st reports) id =
        if (alookup st.tablet_map id).isSome = true
        then lastReportFor reports id else none) ∧
    (∀ (flags : MasterFlags) (policy : ReplicaManagementPolicy) (ts : String)
        (st : CatalogState) (reports1 reports2 : List ReportedTabletPB)
        (w tw : Bool),
      CollectReports st reports1 = CollectReports st reports2 →
      (ProcessTabletReport flags policy ts st reports1 w tw).st =
        (ProcessTabletReport flags policy ts st reports2 w tw).st ∧
      (ProcessTabletReport flags policy ts st reports1 w tw).rpcs =
        (ProcessTabletReport flags policy ts st reports2 w tw).rpcs ∧
      (ProcessTabletReport flags policy ts st reports1 w tw).written =
        (ProcessTabletReport flags policy ts st reports2 w tw).written ∧
      (ProcessTabletReport flags policy ts st reports1 w tw).res =
        (ProcessTabletReport flags policy ts st reports2 w tw).res) := by
  refine ⟨?_, ?_, ?_⟩
  · intro flags policy ts st reports w tw
    unfold ProcessTabletReport
    split <;> rfl
  · intro st reports id
    unfold CollectReports lastReportFor
    rw [alookup_collect_fold]
    rfl
  · intro flags policy ts st reports1 reports2 w tw h
    unfold ProcessTabletReport
    rw [h]
    refine ⟨?_, ?_, ?_, ?_⟩ <;> (split <;> rfl)

/-- Fixture duplicate report (earlier entry for the same tablet) for the C9
witness. -/
def c9EarlierReport : ReportedTabletPB :=
  ⟨"t1", .RUNNING, .TABLET_DATA_READY, false, none, some 5⟩

/-- Witness for C9: with a batch holding an earlier duplicate for tablet t1,
the state, RPCs, written records and status equal those of the batch holding
only the last entry. -/
theorem C9_duplicate_report_entries_witness :
    (ProcessTabletReport testFlags nullPolicy "A" c3State
        [c9EarlierReport, c3Report] true true).st =
      (ProcessTabletReport testFlags nullPolicy "A" c3State
        [c3Report] true true).st ∧
    (ProcessTabletReport testFlags nullPolicy "A" c3State
        [c9EarlierReport, c3Report] true true).rpcs =
      (ProcessTabletReport testFlags nullPolicy "A" c3State
        [c3Report] true true).rpcs ∧
    (ProcessTabletReport testFlags nullPolicy "A" c3State
        [c9EarlierReport, c3Report] true true).written =
      (ProcessTabletReport testFlags nullPolicy "A" c3State
        [c3Report] true true).written ∧
    (ProcessTabletReport testFlags nullPolicy "A" c3State
        [c9EarlierReport, c3Report] true true).res =
      (ProcessTabletReport testFlags nullPolicy "A" c3State
        [c3Report] true true).res :=
  C9_duplicate_report_entries.2.2 testFlags nullPolicy "A" c3State
    [c9EarlierReport, c3Report] [c3Report] true true (by decide)

/-! ## C1: durable write before in-memory commit -/

/-- Fixture table record for C1: an alter in flight. -/
def c1TablePb : SysTablesEntryPB :=
  { state := .ALTERING, state_msg := "", name := "c1", version := 1,
    next_column_id := 0, num_replicas := 3, schema := 2,
    fully_applied_schema := some 1, partition_schema := 0 }

/-- Fixture tablet for C1, whose cached config contains the reporter. -/
def c1Tablet : TabletInfo :=
  ⟨"t1", { state := .RUNNING, state_msg := "", table_id := "T1c",
           partition_key_start := "", partition_key_end := "",
           consensus_state := some ⟨1, "A", ⟨some 5, [⟨"A", .VOTER, false⟩]⟩,
             false⟩ }, -1⟩

/-- Fixture state for C1. -/
def c1State : CatalogState :=
  ⟨[("T1c", ⟨"T1c", c1TablePb, ["t1"]⟩)], [("c1", "T1c")],
   [("t1", c1Tablet)], []⟩

/-- Fixture report for C1: the tablet reports the current schema version,
completing the alter. -/
def c1Report : ReportedTabletPB :=
  ⟨"t1", .RUNNING, .TABLET_DATA_READY, false, none, some 1⟩

/-- C1 counterexample: in ProcessTabletReport the table write that flips an
ALTERING table to RUNNING (HandleTabletSchemaVersionReport, step 13) can
fail, yet the handler still returns success; the table record is simply left
unchanged.  The third conjunct shows the write is really attempted: when it
succeeds the table flips to RUNNING.  This contradicts the claim that every
failed system-tablet write makes the handler return an error. -/
theorem C1_counterexample :
    (ProcessTabletReport testFlags nullPolicy "A" c1State [c1Report] true
      false).res = none ∧
    ((alookup (ProcessTabletReport testFlags nullPolicy "A" c1State
        [c1Report] true false).st.table_ids_map "T1c").map
      (fun t => t.pb.state)) = some TableStatePB.ALTERING ∧
    ((alookup (ProcessTabletReport testFlags nullPolicy "A" c1State
        [c1Report] true true).st.table_ids_map "T1c").map
      (fun t => t.pb.state)) = some TableStatePB.RUNNING := by
  decide

set_option maxHeartbeats 2000000 in
/-- C1 (amended): for CreateTable, DeleteTable and AlterTable, and for the
main tablet-mutation write of ProcessTabletReport: a failed system-catalog
write leaves the committed in-memory directory unchanged and, whenever the
write was attempted, surfaces an error; after a successful write the commit
always completes and the handler reports success.  The exception forced by
the counterexample: the table schema-version flip write inside
ProcessTabletReport step 13 is fire-and-forget; its failure leaves the table
record unchanged but the handler still returns success. -/
theorem C1_write_failure_semantics :
    (∀ (flags : MasterFlags) (numLive : Int) (st : CatalogState)
        (req : CreateTableRequestPB) (tableId : String)
        (tabletIds : List String),
      (CreateTable flags numLive st req tableId tabletIds false).st = st ∧
      ((CreateTable flags numLive st req tableId tabletIds
          false).written.isSome = true →
        (CreateTable flags numLive st req tableId tabletIds false).res =
          some .writeFailed) ∧
      ((CreateTable flags numLive st req tableId tabletIds
          true).written.isSome = true →
        (CreateTable flags numLive st req tableId tabletIds true).res =
          none)) ∧
    (∀ (st : CatalogState) (ident : TableIdentifierPB),
      (DeleteTable st ident false).st = st ∧
      ((DeleteTable st ident false).written.isSome = true →
        (DeleteTable st ident false).res = some .writeFailed) ∧
      ((DeleteTable st ident true).written.isSome = true →
        (DeleteTable st ident true).res = none)) ∧
    (∀ (st : CatalogState) (req : AlterTableRequest),
      (AlterTable st req false).st = st ∧
      ((AlterTable st req false).written.isSome = true →
        (AlterTable st req false).res = some .writeFailed) ∧
      ((AlterTable st req true).written.isSome = true →
        (AlterTable st req true).res = none)) ∧
    (∀ (flags : MasterFlags) (policy : ReplicaManagementPolicy) (ts : String)
        (st : CatalogState) (reports : List ReportedTabletPB) (tw : Bool),
      (ProcessTabletReport flags policy ts st reports false tw).st = st ∧
      (ProcessTabletReport flags policy ts st reports false tw).res =
        some .writeFailed ∧
      (ProcessTabletReport flags policy ts st reports true tw).res = none) := by
  have hwf : ¬ (false = true) := by simp
  have hwt : ¬ ¬ True := not_not_intro trivial
  refine ⟨?_, ?_, ?_, ?_⟩
  · intro flags numLive st req tableId tabletIds
    refine ⟨?_, ?_, ?_⟩
    · simp only [CreateTable]
      rw [if_pos hwf]
      split_ifs <;> rfl
    · simp only [CreateTable]
      rw [if_pos hwf]
      split_ifs <;> (intro hx; first | rfl | exact absurd hx (by simp))
    · simp only [CreateTable]
      rw [if_neg hwt]
      split_ifs <;> (intro hx; first | rfl | exact absurd hx (by simp))
  · intro st ident
    refine ⟨?_, ?_, ?_⟩
    · simp only [DeleteTable]
      rcases hf : FindTable st ident with e | _ | table
      · rfl
      · rfl
      · dsimp only
        rw [if_pos hwf]
        split_ifs <;> rfl
    · simp only [DeleteTable]
      rcases hf : FindTable st ident with e | _ | table
      · exact fun hx => absurd hx (by simp)
      · exact fun hx => absurd hx (by simp)
      · dsimp only
        rw [if_pos hwf]
        split_ifs <;> (intro hx; first | rfl | exact absurd hx (by simp))
    · simp only [DeleteTable]
      rcases hf : FindTable st ident with e | _ | table
      · exact fun hx => absurd hx (by simp)
      · exact fun hx => absurd hx (by simp)
      · dsimp only
        rw [if_neg hwt]
        split_ifs <;> (intro hx; first | rfl | exact absurd hx (by simp))
  · intro st req
    refine ⟨?_, ?_, ?_⟩
    · simp only [AlterTable]
      rcases hf : FindTable st req.table with e | _ | table
      · rfl
      · rfl
      · dsimp only
        rw [if_pos hwf]
        simp only [apply_ite HandlerOutcome.st, ite_self]
    · simp only [AlterTable]
      rcases hf : FindTable st req.table with e | _ | table
      · exact fun hx => absurd hx (by simp)
      · exact fun hx => absurd hx (by simp)
      · dsimp only
        rw [if_pos hwf]
        simp only [apply_ite HandlerOutcome.written,
          apply_ite HandlerOutcome.res, apply_ite Option.isSome,
          Option.isSome_none, Option.isSome_some]
        split_ifs <;> (intro hx; first | rfl | exact absurd hx (by simp))
    · simp only [AlterTable]
      rcases hf : FindTable st req.table with e | _ | table
      · exact fun hx => absurd hx (by simp)
      · exact fun hx => absurd hx (by simp)
      · dsimp only
        rw [if_neg hwt]
        simp only [apply_ite HandlerOutcome.written,
          apply_ite HandlerOutcome.res, apply_ite Option.isSome,
          Option.isSome_none, Option.isSome_some]
        split_ifs <;> (intro hx; first | rfl | exact absurd hx (by simp))
  · intro flags policy ts st reports tw
    refine ⟨?_, ?_, ?_⟩
    · simp only [ProcessTabletReport]
      rw [if_pos hwf]
    · simp only [ProcessTabletReport]
      rw [if_pos hwf]
    · simp only [ProcessTabletReport]
      rw [if_neg hwt]

/-- Witness for C1 (amended) at concrete inputs. -/
theorem C1_write_failure_semantics_witness :
    (DeleteTable c7State ⟨some "T7", none⟩ false).st = c7State ∧
    (DeleteTable c7State ⟨some "T7", none⟩ true).res = none ∧
    (ProcessTabletReport testFlags nullPolicy "A" c1State [c1Report] false
      true).st = c1State :=
  ⟨(C1_write_failure_semantics.2.1 c7State ⟨some "T7", none⟩).1,
   (C1_write_failure_semantics.2.1 c7State ⟨some "T7", none⟩).2.2 (by decide),
   (C1_write_failure_semantics.2.2.2 testFlags nullPolicy "A" c1State
     [c1Report] true).1⟩

end KuduCatalog
